import Mathlib

/-!
Verification of the transform state and synchronization model of the
truck-visualization controller studio.

The embedding models (from the TypeScript source):
  * the four-object transform state held by the `useObjectTransforms` hook
    (`ObjectTransforms`, with per-object transform shapes);
  * partial field updates and the shallow-merge semantics of
    `updateTransform` (object spread `{ ...prev[object], ...updates }`);
  * the localStorage mirror `syncToStorage` (per-object slot, the
    `controller-update-timestamp` key, and the synthesized storage event);
  * the connection poll `checkConnection` reading `last-main-page-update`;
  * the config-document operations of the configSync utility
    (`readConfig`, `exportToConfig`, `importFromConfig`) and of the hook
    (`importConfig`, `resetToDefault`).

JavaScript numbers are embedded as exact rationals (`ℚ`); `Math.PI` is the
rational value of the IEEE double constant.  Fallible operations return
`Except`/`Option`; the browser storage is an association list from string
keys to string values with last-write-wins lookup.
-/

/-- A 3-component numeric array `[number, number, number]` of the source,
treated as an atomic value (a partial update replaces it in full). -/
structure Vec3 where
  x : ℚ
  y : ℚ
  z : ℚ
deriving DecidableEq, Repr

/-- A 2-component numeric array `[number, number]` of the source. -/
structure Vec2 where
  x : ℚ
  y : ℚ
deriving DecidableEq, Repr

/-- Shape of `ObjectTransforms['truck']`: position, rotation, scale, all
3-vectors. -/
structure TruckTransform where
  position : Vec3
  rotation : Vec3
  scale : Vec3
deriving DecidableEq, Repr

/-- Shape of `ObjectTransforms['fuelSensor']`: scalar scale and probe
length. -/
structure FuelSensorTransform where
  position : Vec3
  rotation : Vec3
  scale : ℚ
  probeLength : ℚ
deriving DecidableEq, Repr

/-- Shape of `ObjectTransforms['telematicsDisplay']`: 2-vector size. -/
structure TelematicsTransform where
  position : Vec3
  rotation : Vec3
  size : Vec2
deriving DecidableEq, Repr

/-- Shape of `ObjectTransforms['logo']`: 2-vector scale, forward offset and
visibility flag. -/
structure LogoTransform where
  position : Vec3
  rotation : Vec3
  scale : Vec2
  offsetZ : ℚ
  visible : Bool
deriving DecidableEq, Repr

/-- The four object keys of the `ObjectTransforms` interface. -/
inductive ObjectKey where
  | truck
  | fuelSensor
  | telematicsDisplay
  | logo
deriving DecidableEq, Repr

/-- The transform shape attached to each object key. -/
@[reducible] def TransformOf : ObjectKey → Type
  | .truck => TruckTransform
  | .fuelSensor => FuelSensorTransform
  | .telematicsDisplay => TelematicsTransform
  | .logo => LogoTransform

/-- The full in-memory state of the `useObjectTransforms` hook: one
transform per object key. -/
structure ObjectTransforms where
  truck : TruckTransform
  fuelSensor : FuelSensorTransform
  telematicsDisplay : TelematicsTransform
  logo : LogoTransform
deriving DecidableEq, Repr

/-- `Partial<ObjectTransforms['truck']>`: each field optionally present. -/
structure TruckUpdate where
  position : Option Vec3 := none
  rotation : Option Vec3 := none
  scale : Option Vec3 := none
deriving DecidableEq, Repr

/-- `Partial<ObjectTransforms['fuelSensor']>`. -/
structure FuelSensorUpdate where
  position : Option Vec3 := none
  rotation : Option Vec3 := none
  scale : Option ℚ := none
  probeLength : Option ℚ := none
deriving DecidableEq, Repr

/-- `Partial<ObjectTransforms['telematicsDisplay']>`. -/
structure TelematicsUpdate where
  position : Option Vec3 := none
  rotation : Option Vec3 := none
  size : Option Vec2 := none
deriving DecidableEq, Repr

/-- `Partial<ObjectTransforms['logo']>`. -/
structure LogoUpdate where
  position : Option Vec3 := none
  rotation : Option Vec3 := none
  scale : Option Vec2 := none
  offsetZ : Option ℚ := none
  visible : Option Bool := none
deriving DecidableEq, Repr

/-- The partial-update shape attached to each object key
(`Partial<ObjectTransforms[typeof object]>` in `updateTransform`). -/
@[reducible] def UpdateOf : ObjectKey → Type
  | .truck => TruckUpdate
  | .fuelSensor => FuelSensorUpdate
  | .telematicsDisplay => TelematicsUpdate
  | .logo => LogoUpdate

/-- `prev[object]`: read one object's transform out of the state. -/
def getT (st : ObjectTransforms) : (k : ObjectKey) → TransformOf k
  | .truck => st.truck
  | .fuelSensor => st.fuelSensor
  | .telematicsDisplay => st.telematicsDisplay
  | .logo => st.logo

/-- `{ ...prev, [object]: v }`: replace one object's transform, leaving the
other three sections of the state untouched. -/
def setT (st : ObjectTransforms) : (k : ObjectKey) → TransformOf k → ObjectTransforms
  | .truck, v => { st with truck := v }
  | .fuelSensor, v => { st with fuelSensor := v }
  | .telematicsDisplay, v => { st with telematicsDisplay := v }
  | .logo, v => { st with logo := v }

/-- `{ ...prev[object], ...updates }`: shallow field-level merge.  A field
present in the update replaces the old field in full (arrays are atomic
values); an absent field keeps its previous value. -/
def mergeT : (k : ObjectKey) → TransformOf k → UpdateOf k → TransformOf k
  | .truck, t, u =>
    { position := u.position.getD t.position
      rotation := u.rotation.getD t.rotation
      scale := u.scale.getD t.scale }
  | .fuelSensor, t, u =>
    { position := u.position.getD t.position
      rotation := u.rotation.getD t.rotation
      scale := u.scale.getD t.scale
      probeLength := u.probeLength.getD t.probeLength }
  | .telematicsDisplay, t, u =>
    { position := u.position.getD t.position
      rotation := u.rotation.getD t.rotation
      size := u.size.getD t.size }
  | .logo, t, u =>
    { position := u.position.getD t.position
      rotation := u.rotation.getD t.rotation
      scale := u.scale.getD t.scale
      offsetZ := u.offsetZ.getD t.offsetZ
      visible := u.visible.getD t.visible }

theorem getT_setT_same (st : ObjectTransforms) (k : ObjectKey) (v : TransformOf k) :
    getT (setT st k v) k = v := by
  cases k <;> rfl

theorem getT_setT_ne (st : ObjectTransforms) (k k' : ObjectKey) (v : TransformOf k)
    (h : k' ≠ k) : getT (setT st k v) k' = getT st k' := by
  cases k <;> cases k' <;> first | rfl | exact absurd rfl h

theorem setT_getT (st : ObjectTransforms) (k : ObjectKey) :
    setT st k (getT st k) = st := by
  cases k <;> rfl

theorem setT_setT (st : ObjectTransforms) (k : ObjectKey) (v w : TransformOf k) :
    setT (setT st k v) k w = setT st k w := by
  cases k <;> rfl

/-- The per-object localStorage slot names (`STORAGE_KEYS` in the hook). -/
def storageKeyFor : ObjectKey → String
  | .truck => "truck-config"
  | .fuelSensor => "fuel-sensor-config"
  | .telematicsDisplay => "telematics-display-config"
  | .logo => "logo-config"

/-- The last-update timestamp key written by `syncToStorage`. -/
def tsKey : String := "controller-update-timestamp"

/-- The timestamp key read by `checkConnection` (written by the main page,
never by the editor). -/
def lastMainKey : String := "last-main-page-update"

/-- localStorage: an association list of string keys to string values.
`setItem` prepends, `getItem` takes the first (most recent) binding. -/
def Store := List (String × String)

def setItem (s : Store) (k v : String) : Store := (k, v) :: s

def getItem (s : Store) (k : String) : Option String :=
  (List.find? (fun p => p.1 == k) s).map (fun p => p.2)

theorem getItem_setItem_same (s : Store) (k v : String) :
    getItem (setItem s k v) k = some v := by
  simp [getItem, setItem, List.find?]

theorem getItem_setItem_ne (s : Store) (k k' v : String) (h : k ≠ k') :
    getItem (setItem s k v) k' = getItem s k' := by
  simp only [getItem, setItem, List.find?]
  have : (k == k') = false := by simpa using h
  simp [this]

/-- The synthesized `StorageEvent('storage', { key, newValue, url })`
dispatched by `syncToStorage` so the writer's own context observes the
change (the platform only notifies other contexts).  The `url` field is a
constant of the environment (`window.location.href`) and is omitted. -/
structure StorageEv where
  key : String
  newValue : String
deriving DecidableEq, Repr

/-- Rendering of a numeric value inside the serialized transform (the
model's counterpart of the number formatting of `JSON.stringify`). -/
def serRat (q : ℚ) : String := toString q

def serVec3 (v : Vec3) : String :=
  "[" ++ serRat v.x ++ "," ++ serRat v.y ++ "," ++ serRat v.z ++ "]"

def serVec2 (v : Vec2) : String :=
  "[" ++ serRat v.x ++ "," ++ serRat v.y ++ "]"

def serBool (b : Bool) : String := if b then "true" else "false"

/-- `JSON.stringify(value)` for one object's transform, fields in the
declaration order of the source state object. -/
def serializeT : (k : ObjectKey) → TransformOf k → String
  | .truck, t =>
    "\x7b\"position\":" ++ serVec3 t.position ++ ",\"rotation\":" ++ serVec3 t.rotation ++
      ",\"scale\":" ++ serVec3 t.scale ++ "\x7d"
  | .fuelSensor, t =>
    "\x7b\"position\":" ++ serVec3 t.position ++ ",\"rotation\":" ++ serVec3 t.rotation ++
      ",\"scale\":" ++ serRat t.scale ++ ",\"probeLength\":" ++ serRat t.probeLength ++ "\x7d"
  | .telematicsDisplay, t =>
    "\x7b\"position\":" ++ serVec3 t.position ++ ",\"rotation\":" ++ serVec3 t.rotation ++
      ",\"size\":" ++ serVec2 t.size ++ "\x7d"
  | .logo, t =>
    "\x7b\"position\":" ++ serVec3 t.position ++ ",\"rotation\":" ++ serVec3 t.rotation ++
      ",\"scale\":" ++ serVec2 t.scale ++ ",\"offsetZ\":" ++ serRat t.offsetZ ++
      ",\"visible\":" ++ serBool t.visible ++ "\x7d"

/-- `syncToStorage(key, value)`:
`localStorage.setItem(key, JSON.stringify(value))`, then
`localStorage.setItem('controller-update-timestamp', Date.now().toString())`,
then dispatch a storage event carrying the key and serialized value.
Returns the new store and the dispatched events. -/
def syncToStorage (s : Store) (key value : String) (now : Nat) :
    Store × List StorageEv :=
  (setItem (setItem s key value) tsKey (toString now), [⟨key, value⟩])

/-- The binary connection indicator. -/
inductive ConnStatus where
  | connected
  | disconnected
deriving DecidableEq, Repr

/-- The digits consumed by `parseInt` from the front of the input; none
when the input does not start with a digit. -/
def parseLeadingDigits (cs : List Char) : Option Nat :=
  let ds := cs.takeWhile Char.isDigit
  if ds.isEmpty then none
  else some (ds.foldl (fun acc c => acc * 10 + (c.toNat - 48)) 0)

/-- `parseInt(s)` (base 10): an optional leading minus sign followed by at
least one leading digit; trailing non-digits are ignored; `none` models
`NaN`. -/
def parseIntJS (s : String) : Option Int :=
  match s.data with
  | '-' :: rest => (parseLeadingDigits rest).map (fun n => -(n : Int))
  | cs => (parseLeadingDigits cs).map (fun n => (n : Int))

/-- `checkConnection`: read `last-main-page-update`; when the value is
present (and truthy — the empty string is falsy in JS and is skipped like
absence), parse it and set the status to connected iff the elapsed time is
strictly under 5000 ms; an unparsable value gives `NaN`, for which the
comparison is false, hence disconnected; when the key is absent the status
is left at its previous value.  `now` and timestamps are milliseconds. -/
def checkConnection (prev : ConnStatus) (s : Store) (now : Int) : ConnStatus :=
  match getItem s lastMainKey with
  | none => prev
  | some v =>
    if v = "" then prev
    else
      match parseIntJS v with
      | some ts => if now - ts < 5000 then .connected else .disconnected
      | none => .disconnected

/-- `updateTransform(object, updates)`: shallow-merge the update into the
object's transform, write the new state, and mirror `newTransforms[object]`
to the object's storage slot via `syncToStorage`. -/
def updateTransform (st : ObjectTransforms) (k : ObjectKey) (u : UpdateOf k)
    (now : Nat) (s : Store) : ObjectTransforms × Store × List StorageEv :=
  let v := mergeT k (getT st k) u
  (setT st k v, syncToStorage s (storageKeyFor k) (serializeT k v) now)

/-- The parsed `objectTransforms.json` document as the configSync utility
sees it: a top-level mapping in which each of the four object sections may
be absent (the utility checks `!config[objectKey]`; the sections, when
present, are objects, so absence coincides with JS falsiness). -/
structure ConfigDoc where
  truck : Option TruckTransform := none
  fuelSensor : Option FuelSensorTransform := none
  telematicsDisplay : Option TelematicsTransform := none
  logo : Option LogoTransform := none
deriving DecidableEq, Repr

/-- `config[objectKey]` on the parsed document. -/
def getDocSection (doc : ConfigDoc) : (k : ObjectKey) → Option (TransformOf k)
  | .truck => doc.truck
  | .fuelSensor => doc.fuelSensor
  | .telematicsDisplay => doc.telematicsDisplay
  | .logo => doc.logo

/-- `existingConfig[objectKey] = config`: overwrite one object's section of
the document. -/
def setDocSection (doc : ConfigDoc) : (k : ObjectKey) → TransformOf k → ConfigDoc
  | .truck, v => { doc with truck := some v }
  | .fuelSensor, v => { doc with fuelSensor := some v }
  | .telematicsDisplay, v => { doc with telematicsDisplay := some v }
  | .logo, v => { doc with logo := some v }

/-- Errors surfaced by the config-document operations. `keyNotFound k`
models `throw new Error('No config found for key: ' + objectKey)`. -/
inductive ConfigError where
  | keyNotFound (k : ObjectKey)
deriving DecidableEq, Repr

/-- `importFromConfig(objectKey)`: read the document and return just the
requested object's section; fail when the key is absent. -/
def importFromConfig (doc : ConfigDoc) (k : ObjectKey) :
    Except ConfigError (TransformOf k) :=
  match getDocSection doc k with
  | some t => .ok t
  | none => .error (.keyNotFound k)

/-- `exportToConfig(objectKey, config)`: read the current document and
overwrite the one object's section with the given transform.  The
pretty-printed JSON text of the resulting whole document is what is placed
on the clipboard; the document value itself is returned here. -/
def exportToConfig (doc : ConfigDoc) (k : ObjectKey) (t : TransformOf k) : ConfigDoc :=
  setDocSection doc k t

/-- A controller's `handleImport` applied to a fetched document: on success
the imported section becomes the controller's config; on failure (catch)
an alert is shown and the previous config is kept. -/
def handleImport (k : ObjectKey) (cur : TransformOf k) (doc : ConfigDoc) :
    TransformOf k :=
  match importFromConfig doc k with
  | .ok t => t
  | .error _ => cur

/-- The four controllers' import paths seen as one aggregate state: a
per-object import rewrites only that object's slot with the result of
`handleImport`. -/
def handleImportAll (st : ObjectTransforms) (k : ObjectKey) (doc : ConfigDoc) :
    ObjectTransforms :=
  setT st k (handleImport k (getT st k) doc)

/-- The parse of the fetched document performed by the hook's
`importConfig`/`resetToDefault`: both build sections for all four objects
(`config.truck.position`, ...), so a single absent section throws and the
whole operation fails into its catch branch. -/
def parseConfig (doc : ConfigDoc) : Option ObjectTransforms :=
  match doc.truck, doc.fuelSensor, doc.telematicsDisplay, doc.logo with
  | some a, some b, some c, some d =>
    some { truck := a, fuelSensor := b, telematicsDisplay := c, logo := d }
  | _, _, _, _ => none

/-- The hook's `importConfig`: fetch and parse the document and replace the
state of all four objects with it.  On failure the state is unchanged.  No
`syncToStorage` call occurs on this path: the store and the event list are
returned as-is. -/
def importConfig (st : ObjectTransforms) (doc : ConfigDoc) (s : Store) :
    ObjectTransforms × Store × List StorageEv :=
  match parseConfig doc with
  | none => (st, s, [])
  | some cfg => (cfg, s, [])

/-- The hook's `resetToDefault(object)`: fetch and parse the document
(all four sections), replace only the requested object's transform with
its document section, and mirror that section to storage via
`syncToStorage`.  On failure (catch: alert) the state is unchanged. -/
def resetToDefault (st : ObjectTransforms) (k : ObjectKey) (doc : ConfigDoc)
    (now : Nat) (s : Store) : ObjectTransforms × Store × List StorageEv :=
  match parseConfig doc with
  | none => (st, s, [])
  | some cfg =>
    let v := getT cfg k
    (setT st k v, syncToStorage s (storageKeyFor k) (serializeT k v) now)

/-- A document fetch issued by one of the operations: the request path and
its optional query string. -/
structure FetchRequest where
  path : String
  query : Option String
deriving DecidableEq, Repr

/-- `CONFIG_PATH` / the hook's fetch path. -/
def configPath : String := "/src/config/objectTransforms.json"

/-- The hook's fetch `fetch('/src/config/objectTransforms.json?t=' + Date.now())`:
path plus a fresh-timestamp query. -/
def hookFetchRequest (now : Nat) : FetchRequest :=
  { path := configPath, query := some ("t=" ++ toString now) }

/-- The request of the hook's initial `loadFromJSON`. -/
def loadFromJSONRequest (now : Nat) : FetchRequest := hookFetchRequest now

/-- The request of the hook's `importConfig`. -/
def importConfigRequest (now : Nat) : FetchRequest := hookFetchRequest now

/-- The request of the hook's `resetToDefault`. -/
def resetToDefaultRequest (now : Nat) : FetchRequest := hookFetchRequest now

/-- The request of the configSync utility's `readConfig`:
`fetch(CONFIG_PATH)` with no query string. -/
def readConfigRequest : FetchRequest :=
  { path := configPath, query := none }

/-- `exportToConfig` reads the document through `readConfig`. -/
def exportToConfigRequest : FetchRequest := readConfigRequest

/-- `importFromConfig` reads the document through `readConfig`. -/
def importFromConfigRequest : FetchRequest := readConfigRequest

/-- A request is cache-busting when it carries a query string (the `?t=`
timestamp that defeats the HTTP cache). -/
def isCacheBusted (r : FetchRequest) : Bool := r.query.isSome

/-- `Math.PI` as stored in an IEEE double, as an exact rational. -/
def mathPi : ℚ := 3.141592653589793

/-- Degrees to radians at the UI boundary:
`value * (Math.PI / 180)` in `updateRotation`. -/
def degToRad (d : ℚ) : ℚ := d * (mathPi / 180)

/-- Radians to degrees for display:
`transform.rotation[i] * (180 / Math.PI)`. -/
def radToDeg (r : ℚ) : ℚ := r * (180 / mathPi)

/-- One state-mutating action available inside the editor context: a
partial update (`updateTransform`) or a per-object reset
(`resetToDefault`). -/
inductive EditorOp where
  | upd (k : ObjectKey) (u : UpdateOf k) (now : Nat)
  | reset (k : ObjectKey) (doc : ConfigDoc) (now : Nat)

/-- Apply one editor action to the in-memory state and the store. -/
def applyOp : EditorOp → ObjectTransforms × Store → ObjectTransforms × Store
  | .upd k u now, (st, s) =>
    ((updateTransform st k u now s).1, (updateTransform st k u now s).2.1)
  | .reset k doc now, (st, s) =>
    ((resetToDefault st k doc now s).1, (resetToDefault st k doc now s).2.1)

/-- Apply a sequence of editor actions in order. -/
def applyOps : List EditorOp → ObjectTransforms × Store → ObjectTransforms × Store
  | [], p => p
  | op :: ops, p => applyOps ops (applyOp op p)

theorem tsKey_ne_lastMain : tsKey ≠ lastMainKey := by decide

theorem storageKeyFor_ne_ts (k : ObjectKey) : storageKeyFor k ≠ tsKey := by
  cases k <;> decide

theorem storageKeyFor_ne_lastMain (k : ObjectKey) : storageKeyFor k ≠ lastMainKey := by
  cases k <;> decide

theorem syncToStorage_lastMain (s : Store) (k : ObjectKey) (value : String) (now : Nat) :
    getItem (syncToStorage s (storageKeyFor k) value now).1 lastMainKey
      = getItem s lastMainKey := by
  unfold syncToStorage
  rw [getItem_setItem_ne _ _ _ _ tsKey_ne_lastMain,
    getItem_setItem_ne _ _ _ _ (storageKeyFor_ne_lastMain k)]

theorem applyOp_lastMain (op : EditorOp) (st : ObjectTransforms) (s : Store) :
    getItem (applyOp op (st, s)).2 lastMainKey = getItem s lastMainKey := by
  cases op with
  | upd k u now =>
    show getItem (updateTransform st k u now s).2.1 lastMainKey = _
    unfold updateTransform
    exact syncToStorage_lastMain s k _ now
  | reset k doc now =>
    show getItem (resetToDefault st k doc now s).2.1 lastMainKey = _
    unfold resetToDefault
    cases parseConfig doc with
    | none => rfl
    | some cfg => exact syncToStorage_lastMain s k _ now

theorem applyOps_lastMain (ops : List EditorOp) :
    ∀ (st : ObjectTransforms) (s : Store),
      getItem (applyOps ops (st, s)).2 lastMainKey = getItem s lastMainKey := by
  induction ops with
  | nil => intro st s; rfl
  | cons op ops ih =>
    intro st s
    show getItem (applyOps ops (applyOp op (st, s))).2 lastMainKey = _
    calc getItem (applyOps ops (applyOp op (st, s))).2 lastMainKey
        = getItem (applyOp op (st, s)).2 lastMainKey :=
          ih (applyOp op (st, s)).1 (applyOp op (st, s)).2
      _ = getItem s lastMainKey := applyOp_lastMain op st s

theorem checkConnection_congr (prev : ConnStatus) (s₁ s₂ : Store) (now : Int)
    (h : getItem s₁ lastMainKey = getItem s₂ lastMainKey) :
    checkConnection prev s₁ now = checkConnection prev s₂ now := by
  unfold checkConnection
  rw [h]

/-- Sample data (the truck values are those the spec quotes for the
document's truck section). -/
def zeroVec3 : Vec3 := ⟨0, 0, 0⟩

def sampleTruck : TruckTransform :=
  { position := ⟨1.1, -1.1, -5.3⟩, rotation := ⟨0, mathPi, 0⟩, scale := ⟨1.5, 1.5, 1.5⟩ }

def sampleFuel : FuelSensorTransform :=
  { position := ⟨2, 0.5, 1⟩, rotation := zeroVec3, scale := 1, probeLength := 0.6 }

def sampleTel : TelematicsTransform :=
  { position := ⟨0, 3, -2⟩, rotation := zeroVec3, size := ⟨8, 5⟩ }

def sampleLogo : LogoTransform :=
  { position := ⟨0, 2.25, 5.35⟩, rotation := ⟨0, 0, 0.017453292519943295⟩,
    scale := ⟨1, 0.96⟩, offsetZ := -0.5, visible := true }

/-- A full parsed state as the document would provide it. -/
def sampleCfg : ObjectTransforms :=
  { truck := sampleTruck, fuelSensor := sampleFuel,
    telematicsDisplay := sampleTel, logo := sampleLogo }

/-- A document holding all four sections. -/
def sampleDoc : ConfigDoc :=
  { truck := some sampleTruck, fuelSensor := some sampleFuel,
    telematicsDisplay := some sampleTel, logo := some sampleLogo }

/-- A document lacking the `logo` key. -/
def docNoLogo : ConfigDoc :=
  { truck := some sampleTruck, fuelSensor := some sampleFuel,
    telematicsDisplay := some sampleTel, logo := none }

/-- A neutral in-memory state distinct from `sampleCfg`. -/
def st0 : ObjectTransforms :=
  { truck := { position := zeroVec3, rotation := zeroVec3, scale := ⟨1, 1, 1⟩ }
    fuelSensor := { position := zeroVec3, rotation := zeroVec3, scale := 1, probeLength := 1 }
    telematicsDisplay := { position := zeroVec3, rotation := zeroVec3, size := ⟨1, 1⟩ }
    logo := { position := zeroVec3, rotation := zeroVec3, scale := ⟨1, 1⟩,
              offsetZ := 0, visible := true } }

/-- An empty localStorage. -/
def emptyStore : Store := []

/-- A store holding only the main page's timestamp. -/
def storeMain : Store := [(lastMainKey, "1000")]

/-- A truck update touching only the position array. -/
def updTruckPos : TruckUpdate := { position := some ⟨5, 6, 7⟩ }

/-- C2: for every object key O, prior state S and partial field record U,
`update(O, U)` followed by `get(O)` yields the shallow merge of U into S's
transform for O: each field named in U takes its U value and each field
not named keeps its prior value (arrays replaced atomically); the field
equations are spelled out on the fuelSensor shape, and the scenario
`update('fuelSensor', \x7bscale: 2\x7d)` then
`update('fuelSensor', \x7bprobeLength: 0.8\x7d)` ends with both scale 2 and
probeLength 0.8 while position and rotation are untouched. -/
theorem update_then_get_merges (st : ObjectTransforms) (k : ObjectKey) (u : UpdateOf k)
    (fu : FuelSensorUpdate) (now now' : Nat) (s s' : Store) :
    getT (updateTransform st k u now s).1 k = mergeT k (getT st k) u
    ∧ ((updateTransform st .fuelSensor fu now s).1.fuelSensor.position
         = fu.position.getD st.fuelSensor.position
       ∧ (updateTransform st .fuelSensor fu now s).1.fuelSensor.rotation
         = fu.rotation.getD st.fuelSensor.rotation
       ∧ (updateTransform st .fuelSensor fu now s).1.fuelSensor.scale
         = fu.scale.getD st.fuelSensor.scale
       ∧ (updateTransform st .fuelSensor fu now s).1.fuelSensor.probeLength
         = fu.probeLength.getD st.fuelSensor.probeLength)
    ∧ (updateTransform (updateTransform st .fuelSensor { scale := some 2 } now s).1
          .fuelSensor { probeLength := some (4 / 5) } now' s').1.fuelSensor
        = { position := st.fuelSensor.position, rotation := st.fuelSensor.rotation,
            scale := 2, probeLength := 4 / 5 } :=
  ⟨getT_setT_same st k (mergeT k (getT st k) u), ⟨rfl, rfl, rfl, rfl⟩, rfl⟩

/-- C3: exporting object O with transform T overwrites O's section of the
document with T; importing O against the produced document returns exactly
T. -/
theorem export_import_roundtrip (doc : ConfigDoc) (k : ObjectKey) (t : TransformOf k) :
    importFromConfig (exportToConfig doc k t) k = Except.ok t := by
  cases k <;> rfl

/-- C6: `resetToDefault(O)` twice in a row against the same (unchanged)
document leaves the state of the second reset deep-equal to the state of
the first, whether the document parses or not. -/
theorem reset_idempotent (st : ObjectTransforms) (k : ObjectKey) (doc : ConfigDoc)
    (now₁ now₂ : Nat) (s₁ s₂ : Store) :
    (resetToDefault (resetToDefault st k doc now₁ s₁).1 k doc now₂ s₂).1
      = (resetToDefault st k doc now₁ s₁).1 := by
  cases h : parseConfig doc with
  | none => simp [resetToDefault, h]
  | some cfg => simp [resetToDefault, h, setT_setT]

/-- C8: `resetToDefault(O)` with a parsable document replaces O's transform
with the document's full section for O (bypassing the partial merge) and
leaves the transforms of every other object unchanged. -/
theorem reset_replaces_only_target (st : ObjectTransforms) (k : ObjectKey)
    (doc : ConfigDoc) (cfg : ObjectTransforms) (now : Nat) (s : Store)
    (hdoc : parseConfig doc = some cfg) :
    getT (resetToDefault st k doc now s).1 k = getT cfg k
    ∧ ∀ k', k' ≠ k → getT (resetToDefault st k doc now s).1 k' = getT st k' := by
  constructor
  · simp [resetToDefault, hdoc, getT_setT_same]
  · intro k' hk
    simp [resetToDefault, hdoc, getT_setT_ne st k k' _ hk]

/-- Witness for C8 at the sample document: resetting the truck restores the
document's truck section and leaves the logo untouched. -/
theorem reset_replaces_only_target_witness :
    parseConfig sampleDoc = some sampleCfg
    ∧ getT (resetToDefault st0 .truck sampleDoc 3 emptyStore).1 .truck = getT sampleCfg .truck
    ∧ getT (resetToDefault st0 .truck sampleDoc 3 emptyStore).1 .logo = getT st0 .logo := by
  refine ⟨rfl, ?_, ?_⟩
  · exact (reset_replaces_only_target st0 .truck sampleDoc sampleCfg 3 emptyStore rfl).1
  · exact (reset_replaces_only_target st0 .truck sampleDoc sampleCfg 3 emptyStore rfl).2
      .logo (by decide)

/-- C5: importing object O from a document whose top-level mapping lacks O
fails with the key-not-found error, and the failed import leaves the
controller's current transform — and the whole aggregate in-memory state —
unchanged. -/
theorem import_missing_key_fails (doc : ConfigDoc) (k : ObjectKey)
    (cur : TransformOf k) (st : ObjectTransforms)
    (h : getDocSection doc k = none) :
    importFromConfig doc k = Except.error (ConfigError.keyNotFound k)
    ∧ handleImport k cur doc = cur
    ∧ handleImportAll st k doc = st := by
  refine ⟨?_, ?_, ?_⟩
  · simp [importFromConfig, h]
  · simp [handleImport, importFromConfig, h]
  · simp [handleImportAll, handleImport, importFromConfig, h, setT_getT]

/-- Witness for C5: a document lacking the `logo` key makes
`importFromConfig('logo')` fail with key-not-found and leaves the state
alone. -/
theorem import_missing_key_fails_witness :
    getDocSection docNoLogo .logo = none
    ∧ importFromConfig docNoLogo .logo = Except.error (ConfigError.keyNotFound .logo)
    ∧ handleImport .logo sampleLogo docNoLogo = sampleLogo
    ∧ handleImportAll st0 .logo docNoLogo = st0 :=
  ⟨rfl, import_missing_key_fails docNoLogo .logo sampleLogo st0 rfl⟩

/-- C9: converting a degree value in [-180, 180] to radians by multiplying
by pi/180 (the stored convention) and back by multiplying by 180/pi
recovers the value within an absolute tolerance of 1e-6 (in the exact
arithmetic of the embedding the round trip is the identity). -/
theorem angle_roundtrip (d : ℚ) (h₁ : -180 ≤ d) (h₂ : d ≤ 180) :
    |radToDeg (degToRad d) - d| ≤ 1 / 1000000 := by
  have hpi : mathPi ≠ 0 := by norm_num [mathPi]
  have h : radToDeg (degToRad d) = d := by
    unfold radToDeg degToRad
    have hfac : mathPi / 180 * (180 / mathPi) = 1 := by field_simp
    rw [mul_assoc, hfac, mul_one]
  rw [h, sub_self, abs_zero]
  norm_num

/-- Witness for C9 at 90 degrees. -/
theorem angle_roundtrip_witness :
    -180 ≤ (90 : ℚ) ∧ (90 : ℚ) ≤ 180
    ∧ |radToDeg (degToRad 90) - 90| ≤ 1 / 1000000 :=
  ⟨by norm_num, by norm_num, angle_roundtrip 90 (by norm_num) (by norm_num)⟩

/-- C4 (amended): the hook's initial load, `importConfig` and
`resetToDefault` fetch the document with a cache-busting `?t=` timestamp
query, but the configSync utility's `readConfig` — through which the
per-object export (`exportToConfig`) and per-object import
(`importFromConfig`) actions read the document — fetches the bare path
with no cache-busting query. -/
theorem fetch_requests_spec (now : Nat) :
    isCacheBusted (loadFromJSONRequest now) = true
    ∧ isCacheBusted (importConfigRequest now) = true
    ∧ isCacheBusted (resetToDefaultRequest now) = true
    ∧ isCacheBusted exportToConfigRequest = false
    ∧ isCacheBusted importFromConfigRequest = false :=
  ⟨rfl, rfl, rfl, rfl, rfl⟩

/-- Counterexample to C4 as stated: the document read performed by the
export action (via `readConfig`) carries no query string, so it is not
cache-busted. -/
theorem readConfig_not_cache_busted :
    isCacheBusted exportToConfigRequest = false
    ∧ exportToConfigRequest.query = none :=
  ⟨rfl, rfl⟩

/-- C7 (amended): when the `last-main-page-update` value is present,
non-empty and parses to a timestamp, the poll reports connected exactly
when the elapsed time is strictly under 5000 ms; when the key is absent
the poll does not report at all and the previous status is retained. -/
theorem checkConnection_poll_spec (prev : ConnStatus) (s : Store) (now : Int) :
    (∀ v ts, getItem s lastMainKey = some v → v ≠ "" → parseIntJS v = some ts →
       checkConnection prev s now
         = if now - ts < 5000 then ConnStatus.connected else ConnStatus.disconnected)
    ∧ (getItem s lastMainKey = none → checkConnection prev s now = prev) := by
  constructor
  · intro v ts hv hne hts
    unfold checkConnection
    rw [hv]
    simp [hne, hts]
  · intro h
    unfold checkConnection
    rw [h]

/-- Witness for C7: a 3000 ms old timestamp polls as connected. -/
theorem checkConnection_poll_spec_witness :
    checkConnection ConnStatus.disconnected storeMain 4000 = ConnStatus.connected := by
  have h := (checkConnection_poll_spec ConnStatus.disconnected storeMain 4000).1
    "1000" 1000 rfl (by decide) rfl
  rw [h]
  norm_num

/-- Counterexample to C7 as stated: with the timestamp key absent the poll
leaves the previous status in place, so a poll that starts from
`connected` stays `connected` instead of reporting `disconnected`. -/
theorem checkConnection_absent_keeps_prev :
    checkConnection ConnStatus.connected emptyStore 10000 = ConnStatus.connected
    ∧ ConnStatus.connected ≠ ConnStatus.disconnected :=
  ⟨rfl, by decide⟩

theorem syncToStorage_writes (s : Store) (key value : String) (now : Nat)
    (hk : key ≠ tsKey) :
    getItem (syncToStorage s key value now).1 key = some value
    ∧ getItem (syncToStorage s key value now).1 tsKey = some (toString now)
    ∧ (syncToStorage s key value now).2 = [⟨key, value⟩] := by
  refine ⟨?_, ?_, rfl⟩
  · unfold syncToStorage
    rw [getItem_setItem_ne _ tsKey key _ (Ne.symm hk)]
    exact getItem_setItem_same _ _ _
  · unfold syncToStorage
    exact getItem_setItem_same _ _ _

/-- C1 (amended): a successful `updateTransform` writes the merged
transform, serialized, to the object's storage slot, writes the
`controller-update-timestamp` value, and dispatches a storage event
carrying the slot key and serialized value; a successful `resetToDefault`
does the same with the document's section; but the whole-config
`importConfig` path replaces every object's state and performs none of
these writes — the store and the event stream are untouched. -/
theorem mirror_on_update_and_reset (st : ObjectTransforms) (k : ObjectKey)
    (u : UpdateOf k) (doc : ConfigDoc) (cfg : ObjectTransforms) (now : Nat)
    (s : Store) (hdoc : parseConfig doc = some cfg) :
    (getItem (updateTransform st k u now s).2.1 (storageKeyFor k)
       = some (serializeT k (mergeT k (getT st k) u))
     ∧ getItem (updateTransform st k u now s).2.1 tsKey = some (toString now)
     ∧ (updateTransform st k u now s).2.2
       = [⟨storageKeyFor k, serializeT k (mergeT k (getT st k) u)⟩])
    ∧ (getItem (resetToDefault st k doc now s).2.1 (storageKeyFor k)
       = some (serializeT k (getT cfg k))
     ∧ getItem (resetToDefault st k doc now s).2.1 tsKey = some (toString now)
     ∧ (resetToDefault st k doc now s).2.2
       = [⟨storageKeyFor k, serializeT k (getT cfg k)⟩])
    ∧ ((importConfig st doc s).1 = cfg
     ∧ (importConfig st doc s).2.1 = s
     ∧ (importConfig st doc s).2.2 = []) := by
  refine ⟨?_, ?_, ?_⟩
  · show getItem (syncToStorage s (storageKeyFor k) _ now).1 _ = _
      ∧ getItem (syncToStorage s (storageKeyFor k) _ now).1 tsKey = _
      ∧ (syncToStorage s (storageKeyFor k) _ now).2 = _
    exact syncToStorage_writes s (storageKeyFor k) _ now (storageKeyFor_ne_ts k)
  · have h := syncToStorage_writes s (storageKeyFor k) (serializeT k (getT cfg k)) now
      (storageKeyFor_ne_ts k)
    refine ⟨?_, ?_, ?_⟩ <;> simp [resetToDefault, hdoc] <;>
      simp [h.1, h.2.1, h.2.2]
  · exact ⟨by simp [importConfig, hdoc], by simp [importConfig, hdoc],
      by simp [importConfig, hdoc]⟩

/-- Witness for C1 at a concrete update and the sample document. -/
theorem mirror_on_update_and_reset_witness :
    parseConfig sampleDoc = some sampleCfg
    ∧ getItem (updateTransform st0 .truck updTruckPos 7 emptyStore).2.1
        (storageKeyFor .truck)
      = some (serializeT .truck (mergeT .truck (getT st0 .truck) updTruckPos))
    ∧ getItem (resetToDefault st0 .truck sampleDoc 7 emptyStore).2.1 tsKey
      = some (toString 7)
    ∧ (importConfig st0 sampleDoc emptyStore).2.2 = [] := by
  have h := mirror_on_update_and_reset st0 .truck updTruckPos sampleDoc sampleCfg 7
    emptyStore rfl
  exact ⟨rfl, h.1.1, h.2.1.2.1, h.2.2.2.2⟩

/-- Counterexample to C1 as stated: a successful whole-config import
replaces the state (here with the sample document's transforms, distinct
from the prior state) yet writes nothing to storage and dispatches no
event; in particular the truck's slot and the timestamp key stay empty. -/
theorem importConfig_does_not_mirror :
    (importConfig st0 sampleDoc emptyStore).1 ≠ st0
    ∧ (importConfig st0 sampleDoc emptyStore).2.1 = emptyStore
    ∧ (importConfig st0 sampleDoc emptyStore).2.2 = []
    ∧ getItem (importConfig st0 sampleDoc emptyStore).2.1 (storageKeyFor .truck) = none
    ∧ getItem (importConfig st0 sampleDoc emptyStore).2.1 tsKey = none := by
  refine ⟨?_, rfl, rfl, rfl, rfl⟩
  intro hEq
  have h3 : (3 : ℚ) = 0 :=
    congrArg (fun t : ObjectTransforms => t.telematicsDisplay.position.y) hEq
  norm_num at h3

/-- C10: the mirror's timestamp key `controller-update-timestamp` is
disjoint from the poller's key `last-main-page-update` (as is every
per-object slot key), so any sequence of editor-side update/reset
operations leaves the value the poller reads — and hence the polled
connection status — exactly as it was: the editor's own writes can never
make its status `connected`. -/
theorem editor_writes_never_touch_poller (ops : List EditorOp)
    (st : ObjectTransforms) (s : Store) :
    tsKey ≠ lastMainKey
    ∧ (∀ k, storageKeyFor k ≠ lastMainKey)
    ∧ getItem (applyOps ops (st, s)).2 lastMainKey = getItem s lastMainKey
    ∧ ∀ prev now,
        checkConnection prev (applyOps ops (st, s)).2 now = checkConnection prev s now := by
  refine ⟨tsKey_ne_lastMain, storageKeyFor_ne_lastMain, applyOps_lastMain ops st s, ?_⟩
  intro prev now
  exact checkConnection_congr prev _ s now (applyOps_lastMain ops st s)
